import Mathlib

/-!
Shallow embedding of the three command-line utilities of this repository
(`deepSeek.py`, `newstopdf.py`, `image-gen.py`) together with proofs of the
testable properties stated in the specification.

Modelling conventions:
* Python dict fields that may be absent are `Option` fields; `none` models an
  absent key, so `article.get(key, default)` becomes `Option.getD`.
* External HTTP / LLM / base64 services are oracles passed as explicit
  function arguments.  The per-article chat-completion call is an oracle
  indexed by the call number (the position of the article in the batch), so
  that two runs can differ at exactly one call.  A streamed chat response is
  a list of tokens, each `Option String`: `some s` is a token carrying a text
  delta, `none` is a token without a `choices` attribute (skipped by the
  loop).  A raised exception anywhere in the call (including mid-stream) is
  the `Except.error` case carrying `str(e)`; the Python code then discards
  any partial text, which the embedding mirrors.
* `print` output that a claim mentions is modelled explicitly (a `Bool` flag
  or a list of emitted message strings).
* Python `str.strip()` is `pyStrip` (ASCII whitespace) and `int(...)` parsing
  is `pyParseInt` (ASCII numerals: optional sign, digits, single underscores
  between digits).
-/

/-- ASCII whitespace characters stripped by Python `str.strip()`. -/
def pySpace (c : Char) : Bool :=
  c = ' ' || c = '\t' || c = '\n' || c = '\r' || c = '\x0b' || c = '\x0c'

/-- Strip `pySpace` characters from both ends of a character list. -/
def trimChars (cs : List Char) : List Char :=
  ((cs.dropWhile pySpace).reverse.dropWhile pySpace).reverse

/-- Embedding of Python `str.strip()` (ASCII whitespace). -/
def pyStrip (s : String) : String :=
  String.mk (trimChars s.data)

/-- Boolean string-prefix test, used to state the failure-marker claims. -/
def beginsWith (pre s : String) : Bool :=
  List.isPrefixOf pre.data s.data

/-- After one digit: digits, optionally separated by single underscores. -/
def pyDigitTail : List Char → Bool
  | [] => true
  | '_' :: c :: r => c.isDigit && pyDigitTail r
  | c :: r => c.isDigit && pyDigitTail r

/-- Non-empty digit run, single underscores allowed between digits. -/
def pyDigits : List Char → Bool
  | [] => false
  | c :: r => c.isDigit && pyDigitTail r

/-- Numeric value of a digit-and-underscore run. -/
def pyDigitsVal (cs : List Char) : Nat :=
  (cs.filter fun c => c ≠ '_').foldl (fun acc c => 10 * acc + (c.toNat - 48)) 0

/-- Embedding of Python `int(s)` for ASCII numerals: surrounding whitespace is
stripped, an optional single sign is allowed, then digits with single
underscores between them; every other string raises `ValueError`, which is
the `none` case. -/
def pyParseInt (s : String) : Option Int :=
  match trimChars s.data with
  | '-' :: core => if pyDigits core then some (-(pyDigitsVal core : Int)) else none
  | '+' :: core => if pyDigits core then some (pyDigitsVal core : Int) else none
  | core => if pyDigits core then some (pyDigitsVal core : Int) else none

/-- The `int(input(...))` / `except ValueError` block shared verbatim by the
`__main__` section of `deepSeek.py` and `main` of `newstopdf.py`: the parsed
day count, or the default 10 together with the "Invalid number of days"
notice (second component `true`). -/
def read_days (s : String) : Int × Bool :=
  match pyParseInt s with
  | some n => (n, false)
  | none => (10, true)

/-- The `source` object of a NewsAPI article; its `name` key may be absent. -/
structure NewsSource where
  name : Option String

/-- One article of the NewsAPI response.  Each field models the presence or
absence of the corresponding dict key. -/
structure Article where
  title : Option String
  description : Option String
  content : Option String
  url : Option String
  publishedAt : Option String
  source : Option NewsSource

/-- The per-article record appended by the summarization loops; all five
fields are always set by the code that builds it. -/
structure SummaryRecord where
  title : String
  publishedAt : String
  source : String
  summary : String
  url : String

/-- One `{role, content}` chat message. -/
structure ChatMessage where
  role : String
  content : String

/-- Outcome of one chat-completion call: a raised exception (carrying
`str(e)`), or the streamed token list. -/
abbrev ModelResult := Except String (List (Option String))

/-- The external LLM endpoint, indexed by which call of the batch this is. -/
abbrev ModelOracle := Nat → List ChatMessage → ModelResult

/-- Parsed JSON body of the NewsAPI response. -/
structure NewsBody where
  status : Option String
  articles : Option (List Article)

/-- HTTP response to the news request.  `body = none` models a body that is
not valid JSON, on which `response.json()` raises. -/
structure HttpResponse where
  status_code : Nat
  body : Option NewsBody

/-- Query parameters of the news request; dates are coded as day numbers. -/
structure NewsRequest where
  q : String
  fromDay : Int
  toDay : Int
  language : Option String
  sortBy : String

/-- The external HTTP transport: `Except.error` models an exception raised by
`requests.get` itself. -/
abbrev HttpOracle := NewsRequest → Except String HttpResponse

/-- The `response_text += token.choices[0].delta.content` accumulation loop:
tokens without a `choices` attribute are skipped. -/
def stream_text : List (Option String) → String
  | [] => ""
  | some s :: rest => s ++ stream_text rest
  | none :: rest => stream_text rest

/-- Result text of one guarded model call: the concatenated stream on
success, the `"Error during summarisation: "` string if the call raised. -/
def stream_result : ModelResult → String
  | Except.ok toks => stream_text toks
  | Except.error e => "Error during summarisation: " ++ e

namespace DeepSeek

/-- Request built by `get_company_news` in `deepSeek.py`. -/
def news_request (today : Int) (company_name : String) (num_days : Int) : NewsRequest :=
  { q := company_name
    fromDay := today - num_days
    toDay := today
    language := none
    sortBy := "popularity" }

/-- `get_company_news` of `deepSeek.py`.  `Except.error` is an exception
propagating to the caller (a transport error from `requests.get`, or a
`response.json()` decode error on a 200 response). -/
def get_company_news (http : HttpOracle) (today : Int) (company_name : String)
    (num_days : Int) : Except String (List Article) :=
  match http (news_request today company_name num_days) with
  | Except.error e => Except.error e
  | Except.ok response =>
    if response.status_code ≠ 200 then Except.ok []
    else
      match response.body with
      | none => Except.error "JSONDecodeError"
      | some data =>
        if data.status ≠ some "ok" then Except.ok []
        else Except.ok (data.articles.getD [])

/-- The `article_text` block of `summarize_news`. -/
def article_text (article : Article) : String :=
  "Title: " ++ article.title.getD "N/A" ++
  "\nDescription: " ++ article.description.getD "N/A" ++
  "\nContent: " ++ article.content.getD "N/A" ++
  "\nURL: " ++ article.url.getD "" ++
  "\nPublishedAt: " ++ article.publishedAt.getD "N/A"

/-- The user prompt of `summarize_news`. -/
def prompt (article : Article) : String :=
  "Please analyse the following news article and summarise it in 2-3 sentences using simple language. " ++
  "Highlight the key points and explain if this news is good or bad for the company\x27s financial health. " ++
  "If any technical term appears, please explain it in brackets (). Also, include your thinking process " ++
  "(i.e. your analysis and reasoning) in your output.\n\n" ++ article_text article

/-- The message list sent to the model by `summarize_news`. -/
def messages (article : Article) : List ChatMessage :=
  [{ role := "system"
     content := "You are a helpful assistant summarising financial news for market research in simple language." },
   { role := "user", content := prompt article }]

/-- One iteration of the `summarize_news` loop: the record appended for
`article` when the guarded model call is call number `i` of the batch. -/
def record (o : ModelOracle) (i : Nat) (article : Article) : SummaryRecord :=
  { title := article.title.getD "N/A"
    publishedAt := article.publishedAt.getD "N/A"
    source := ((article.source.getD { name := none }).name).getD "Unknown"
    summary := pyStrip (stream_result (o i (messages article)))
    url := article.url.getD "" }

/-- The `summarize_news` loop, carrying the number of calls already made. -/
def summarizeFrom (o : ModelOracle) : Nat → List Article → List SummaryRecord
  | _, [] => []
  | k, article :: rest => record o k article :: summarizeFrom o (k + 1) rest

/-- `summarize_news` of `deepSeek.py`. -/
def summarize_news (o : ModelOracle) (news_articles : List Article) : List SummaryRecord :=
  summarizeFrom o 0 news_articles

/-- One row added by `display_news`: date, source, title and the combined
summary-plus-link cell. -/
def display_row (news : SummaryRecord) : String × String × String × String :=
  (news.publishedAt, news.source, news.title,
   news.summary ++ "\n\n[link=" ++ news.url ++ "]Read More[/link]")

/-- `display_news` of `deepSeek.py`, as the list of table rows it prints. -/
def display_news (news_summaries : List SummaryRecord) : List (String × String × String × String) :=
  news_summaries.map display_row

end DeepSeek

namespace NewsToPdf

/-- Request built by `get_company_news` in `newstopdf.py`: the query is
`f"{company_name} AND India"` and an English language filter is added. -/
def news_request (today : Int) (company_name : String) (num_days : Int) : NewsRequest :=
  { q := company_name ++ " AND India"
    fromDay := today - num_days
    toDay := today
    language := some "en"
    sortBy := "popularity" }

/-- `get_company_news` of `newstopdf.py`; same retrieval logic as the
`deepSeek.py` variant, duplicated in the source. -/
def get_company_news (http : HttpOracle) (today : Int) (company_name : String)
    (num_days : Int) : Except String (List Article) :=
  match http (news_request today company_name num_days) with
  | Except.error e => Except.error e
  | Except.ok response =>
    if response.status_code ≠ 200 then Except.ok []
    else
      match response.body with
      | none => Except.error "JSONDecodeError"
      | some data =>
        if data.status ≠ some "ok" then Except.ok []
        else Except.ok (data.articles.getD [])

/-- The `article_text` block of `summarize_article`. -/
def article_text (article : Article) : String :=
  "Title: " ++ article.title.getD "N/A" ++
  "\nDescription: " ++ article.description.getD "N/A" ++
  "\nContent: " ++ article.content.getD "N/A" ++
  "\nURL: " ++ article.url.getD "" ++
  "\nPublishedAt: " ++ article.publishedAt.getD "N/A"

/-- The user prompt of `summarize_article`. -/
def prompt (article : Article) : String :=
  "Please summarise the following news article in 2-3 simple sentences. " ++
  "Highlight the key news points that a trader or stock broker might use to assess investment potential. " ++
  "Explain any technical term in brackets () and do not include any internal analysis or \x27thinking\x27 text.\n\n" ++
  article_text article

/-- The message list sent to the model by `summarize_article`. -/
def messages (article : Article) : List ChatMessage :=
  [{ role := "system"
     content := "You are a helpful assistant providing investment insights by summarising news articles in simple language." },
   { role := "user", content := prompt article }]

/-- `summarize_article` of `newstopdf.py`, given the outcome of its guarded
model call: `summary_text.strip()`. -/
def summarize_article (call : ModelResult) : String :=
  pyStrip (stream_result call)

/-- One iteration of the summarization loop of `main`: the dict appended to
`news_data` for `article`, when its model call is call number `i`. -/
def record (o : ModelOracle) (i : Nat) (article : Article) : SummaryRecord :=
  { publishedAt := article.publishedAt.getD "N/A"
    source := ((article.source.getD { name := none }).name).getD "Unknown"
    title := article.title.getD "N/A"
    summary := summarize_article (o i (messages article))
    url := article.url.getD "" }

/-- The summarization loop of `main`, carrying the number of calls made. -/
def newsDataFrom (o : ModelOracle) : Nat → List Article → List SummaryRecord
  | _, [] => []
  | k, article :: rest => record o k article :: newsDataFrom o (k + 1) rest

/-- The full `news_data` list built by `main` of `newstopdf.py`. -/
def news_data (o : ModelOracle) (articles : List Article) : List SummaryRecord :=
  newsDataFrom o 0 articles

/-- One data row of `generate_pdf`: the `row` list built per item, with the
date truncated to its first 10 characters. -/
def pdf_row (item : SummaryRecord) : String × String × String × String × String :=
  (item.publishedAt.take 10, item.source, item.title, item.summary, item.url)

/-- The PDF artifact `generate_pdf` writes, as its observable content. -/
structure PdfDoc where
  filename : String
  title : String
  headers : List String
  rows : List (String × String × String × String × String)

/-- `generate_pdf` of `newstopdf.py`.  `fontLoad` is the outcome of the
`pdf.add_font` / `pdf.set_font` block; when it raises, the function raises
`RuntimeError("PDF font error: " + str(e))` instead of producing a PDF. -/
def generate_pdf (fontLoad : Except String Unit) (company_name : String)
    (news_data : List SummaryRecord) : Except String PdfDoc :=
  match fontLoad with
  | Except.error e => Except.error ("PDF font error: " ++ e)
  | Except.ok _ =>
    Except.ok
      { filename := company_name ++ ".pdf"
        title := company_name ++ " - Investment News Insights"
        headers := ["Date", "Source", "Title", "Summary", "URL"]
        rows := news_data.map pdf_row }

/-- The five values interpolated per item by the `generate_html` loop. -/
def html_row (item : SummaryRecord) : String × String × String × String × String :=
  (item.publishedAt.take 10, item.source, item.title, item.summary, item.url)

/-- The `<tr>` string appended per item by `generate_html`. -/
def html_row_string (item : SummaryRecord) : String :=
  "<tr><td>" ++ item.publishedAt.take 10 ++ "</td><td>" ++ item.source ++
  "</td><td>" ++ item.title ++ "</td><td>" ++ item.summary ++
  "</td><td><a href=\x27" ++ item.url ++ "\x27>Link</a></td></tr>"

/-- The HTML artifact `generate_html` writes, as its observable content. -/
structure HtmlDoc where
  filename : String
  title : String
  rows : List (String × String × String × String × String)

/-- `generate_html` of `newstopdf.py`. -/
def generate_html (company_name : String) (news_data : List SummaryRecord) : HtmlDoc :=
  { filename := company_name ++ ".html"
    title := company_name ++ " - Investment News Insights"
    rows := news_data.map html_row }

/-- Outcome of the rendering step of `main`: the PDF, or — when
`generate_pdf` raised — the fallback HTML report plus the caught error. -/
inductive RenderOutcome where
  | pdf (doc : PdfDoc)
  | htmlFallback (errMsg : String) (doc : HtmlDoc)

/-- The `try: generate_pdf ... except: generate_html` block of `main`. -/
def render_reports (fontLoad : Except String Unit) (company : String)
    (news : List SummaryRecord) : RenderOutcome :=
  match generate_pdf fontLoad company news with
  | Except.ok doc => RenderOutcome.pdf doc
  | Except.error e => RenderOutcome.htmlFallback e (generate_html company news)

end NewsToPdf

namespace ImageGen

/-- `choose_image_ratio` of `image-gen.py`: the `(width, height)` pair, and
whether the "Invalid choice" warning was printed. -/
def choose_image_ratio (choice_input : String) : (Nat × Nat) × Bool :=
  let choice := pyStrip choice_input
  if choice = "1" then ((1024, 576), false)
  else if choice = "2" then ((1024, 768), false)
  else if choice = "3" then ((1024, 1024), false)
  else ((1024, 768), true)

/-- `generate_image` of `image-gen.py`.  `call` is the guarded API call: an
exception, or the `response.data` list of base64 payloads (an absent or
empty `data` is the empty list).  Returns the payload (or `none`) and the
messages printed. -/
def generate_image (call : Except String (List String)) : Option String × List String :=
  match call with
  | Except.error e => (none, ["Error during image generation: " ++ e])
  | Except.ok [] => (none, ["No image data received."])
  | Except.ok (d :: _) => (some d, [])

/-- `save_image` of `image-gen.py`.  `decode` is `base64.b64decode`; on
success the file `(filename, bytes)` is written, on a raised decode error
nothing is written.  Returns the file written (if any) and the messages
printed. -/
def save_image (decode : String → Except String (List Nat)) (b64_image_data : String)
    (filename : String) : Option (String × List Nat) × List String :=
  match decode b64_image_data with
  | Except.ok image_bytes => (some (filename, image_bytes), ["✅ Image saved as: " ++ filename])
  | Except.error e => (none, ["Error saving image: " ++ e])

/-- `main` of `image-gen.py` from the generation call onwards: the file
written to disk (if any) and the messages printed. -/
def image_main (call : Except String (List String))
    (decode : String → Except String (List Nat)) : Option (String × List Nat) × List String :=
  match generate_image call with
  | (some b64_data, msgs) =>
    let saved := save_image decode b64_data "generated_image.png"
    (saved.1, msgs ++ saved.2)
  | (none, msgs) => (none, msgs ++ ["❌ Failed to generate image."])

end ImageGen

/-- The (date, source, title) triple of each console-table row. -/
def console_triples (l : List SummaryRecord) : List (String × String × String) :=
  (DeepSeek.display_news l).map fun t => (t.1, t.2.1, t.2.2.1)

/-- The (date, source, title) triple of each PDF data row. -/
def pdf_triples (l : List SummaryRecord) : List (String × String × String) :=
  (l.map NewsToPdf.pdf_row).map fun t => (t.1, t.2.1, t.2.2.1)

/-- The (date, source, title) triple of each HTML data row. -/
def html_triples (l : List SummaryRecord) : List (String × String × String) :=
  (l.map NewsToPdf.html_row).map fun t => (t.1, t.2.1, t.2.2.1)

/-- A sample model oracle whose every call streams one token. -/
def exO : ModelOracle := fun _ _ => Except.ok [some "Good news."]

/-- The sample article of the specification. -/
def exArticle : Article :=
  { title := some "X raises funding"
    description := none
    content := none
    url := some "http://x"
    publishedAt := some "2024-01-01T00:00:00Z"
    source := some { name := some "Reuters" } }

/-- A model oracle every call of which raises an exception whose `str(e)` is
empty, as for Python `raise Exception()`. -/
def c2exO : ModelOracle := fun _ _ => Except.error ""

/-- A model oracle whose first call raises `Exception("boom")` and whose
later calls stream normally. -/
def c2wO1 : ModelOracle :=
  fun j _ => if j = 0 then Except.error "boom" else Except.ok [some "fine"]

/-- The same oracle with the first call replaced by a successful empty
stream; it agrees with `c2wO1` at every other call. -/
def c2wO2 : ModelOracle :=
  fun j m => if j = 0 then Except.ok [] else c2wO1 j m

/-- A two-article batch for the failure-isolation witness. -/
def c2wL : List Article := [exArticle, exArticle]

/-- A concrete non-success HTTP response. -/
def c3resp : HttpResponse := { status_code := 500, body := none }

/-- A transport oracle that always yields `c3resp`. -/
def c3http : HttpOracle := fun _ => Except.ok c3resp

/-- A record whose published timestamp is longer than 10 characters. -/
def c4rec : SummaryRecord :=
  { title := "X raises funding"
    publishedAt := "2024-01-01T00:00:00Z"
    source := "Reuters"
    summary := "Good news."
    url := "http://x" }

/-- A base64 decoder oracle that always succeeds. -/
def c7decode : String → Except String (List Nat) := fun _ => Except.ok [137, 80, 78, 71]

/-- An article with every optional key absent. -/
def c9article : Article :=
  { title := none
    description := none
    content := none
    url := none
    publishedAt := none
    source := none }

/-! ### Helper lemmas about the summarization loops -/

theorem mapIdx_ext {α β : Type} (f g : Nat → α → β) (l : List α)
    (h : ∀ i a, f i a = g i a) : l.mapIdx f = l.mapIdx g := by
  induction l generalizing f g with
  | nil => simp
  | cons a rest ih =>
    simp only [List.mapIdx_cons]
    exact congrArg₂ List.cons (h 0 a) (ih _ _ fun i b => h (i + 1) b)

theorem deepseek_length_summarizeFrom (o : ModelOracle) (k : Nat) (l : List Article) :
    (DeepSeek.summarizeFrom o k l).length = l.length := by
  induction l generalizing k with
  | nil => rfl
  | cons a rest ih => simp [DeepSeek.summarizeFrom, ih]

theorem deepseek_summarizeFrom_eq_mapIdx (o : ModelOracle) (k : Nat) (l : List Article) :
    DeepSeek.summarizeFrom o k l = l.mapIdx fun i a => DeepSeek.record o (k + i) a := by
  induction l generalizing k with
  | nil => rfl
  | cons a rest ih =>
    simp only [DeepSeek.summarizeFrom, List.mapIdx_cons, Nat.add_zero, ih]
    refine congrArg₂ List.cons rfl ?_
    exact mapIdx_ext _ _ rest fun i b => by rw [Nat.add_assoc, Nat.add_comm 1 i]

theorem deepseek_get_summarizeFrom (o : ModelOracle) (k : Nat) (l : List Article) (i : Nat)
    (hi : i < l.length) (h2 : i < (DeepSeek.summarizeFrom o k l).length) :
    (DeepSeek.summarizeFrom o k l).get ⟨i, h2⟩ = DeepSeek.record o (k + i) (l.get ⟨i, hi⟩) := by
  induction l generalizing k i with
  | nil => exact absurd hi (by simp)
  | cons a rest ih =>
    cases i with
    | zero => rfl
    | succ n =>
      have hn : n < rest.length := Nat.lt_of_succ_lt_succ hi
      have h2n : n < (DeepSeek.summarizeFrom o (k + 1) rest).length := by
        rw [deepseek_length_summarizeFrom]; exact hn
      have step : (DeepSeek.summarizeFrom o k (a :: rest)).get ⟨n + 1, h2⟩ =
          (DeepSeek.summarizeFrom o (k + 1) rest).get ⟨n, h2n⟩ := rfl
      rw [step, ih (k + 1) n hn h2n]
      have harith : k + 1 + n = k + (n + 1) := by omega
      rw [harith]
      rfl

theorem newstopdf_length_newsDataFrom (o : ModelOracle) (k : Nat) (l : List Article) :
    (NewsToPdf.newsDataFrom o k l).length = l.length := by
  induction l generalizing k with
  | nil => rfl
  | cons a rest ih => simp [NewsToPdf.newsDataFrom, ih]

theorem newstopdf_newsDataFrom_eq_mapIdx (o : ModelOracle) (k : Nat) (l : List Article) :
    NewsToPdf.newsDataFrom o k l = l.mapIdx fun i a => NewsToPdf.record o (k + i) a := by
  induction l generalizing k with
  | nil => rfl
  | cons a rest ih =>
    simp only [NewsToPdf.newsDataFrom, List.mapIdx_cons, Nat.add_zero, ih]
    refine congrArg₂ List.cons rfl ?_
    exact mapIdx_ext _ _ rest fun i b => by rw [Nat.add_assoc, Nat.add_comm 1 i]

theorem newstopdf_get_newsDataFrom (o : ModelOracle) (k : Nat) (l : List Article) (i : Nat)
    (hi : i < l.length) (h2 : i < (NewsToPdf.newsDataFrom o k l).length) :
    (NewsToPdf.newsDataFrom o k l).get ⟨i, h2⟩ = NewsToPdf.record o (k + i) (l.get ⟨i, hi⟩) := by
  induction l generalizing k i with
  | nil => exact absurd hi (by simp)
  | cons a rest ih =>
    cases i with
    | zero => rfl
    | succ n =>
      have hn : n < rest.length := Nat.lt_of_succ_lt_succ hi
      have h2n : n < (NewsToPdf.newsDataFrom o (k + 1) rest).length := by
        rw [newstopdf_length_newsDataFrom]; exact hn
      have step : (NewsToPdf.newsDataFrom o k (a :: rest)).get ⟨n + 1, h2⟩ =
          (NewsToPdf.newsDataFrom o (k + 1) rest).get ⟨n, h2n⟩ := rfl
      rw [step, ih (k + 1) n hn h2n]
      have harith : k + 1 + n = k + (n + 1) := by omega
      rw [harith]
      rfl

/-- Claim C1: for every non-empty Article list, `summarize_news` of
`deepSeek.py` and the per-article loop of `main` in `newstopdf.py` produce
exactly one SummaryRecord per input article, and the output equals the
index-respecting map of the per-article record over the input list, so input
order is preserved. -/
theorem claim_c1 (o : ModelOracle) (l : List Article) (h : l ≠ []) :
    (DeepSeek.summarize_news o l).length = l.length ∧
    DeepSeek.summarize_news o l = l.mapIdx (DeepSeek.record o) ∧
    (NewsToPdf.news_data o l).length = l.length ∧
    NewsToPdf.news_data o l = l.mapIdx (NewsToPdf.record o) := by
  refine ⟨deepseek_length_summarizeFrom o 0 l, ?_, newstopdf_length_newsDataFrom o 0 l, ?_⟩
  · unfold DeepSeek.summarize_news
    rw [deepseek_summarizeFrom_eq_mapIdx]
    exact mapIdx_ext _ _ l fun i a => by rw [Nat.zero_add]
  · unfold NewsToPdf.news_data
    rw [newstopdf_newsDataFrom_eq_mapIdx]
    exact mapIdx_ext _ _ l fun i a => by rw [Nat.zero_add]

/-- Witness for claim C1 at the specification example article. -/
theorem claim_c1_witness :
    [exArticle] ≠ [] ∧
    ((DeepSeek.summarize_news exO [exArticle]).length = [exArticle].length ∧
     DeepSeek.summarize_news exO [exArticle] = [exArticle].mapIdx (DeepSeek.record exO) ∧
     (NewsToPdf.news_data exO [exArticle]).length = [exArticle].length ∧
     NewsToPdf.news_data exO [exArticle] = [exArticle].mapIdx (NewsToPdf.record exO)) :=
  ⟨by simp, claim_c1 exO [exArticle] (by simp)⟩

/-! ### Lemmas about the stripped failure-marker string -/

theorem isPrefixOf_append_self (l z : List Char) : List.isPrefixOf l (l ++ z) = true := by
  induction l with
  | nil => simp
  | cons a t ih => simp [List.isPrefixOf, ih]

theorem trimChars_marker (E : List Char) :
    ∃ z : List Char,
      trimChars ("Error during summarisation: ".data ++ E) =
        "Error during summarisation:".data ++ z := by
  have hM : List.dropWhile pySpace ("Error during summarisation: ".data) =
      "Error during summarisation: ".data := by decide
  have hMrev : List.dropWhile pySpace ("Error during summarisation: ".data).reverse =
      ("Error during summarisation:".data).reverse := by decide
  have hsplit : "Error during summarisation: ".data =
      "Error during summarisation:".data ++ [' '] := by decide
  have hne : ("Error during summarisation: ".data).isEmpty = false := by decide
  unfold trimChars
  rw [List.dropWhile_append, hM, hne]
  simp only [Bool.false_eq_true, if_false]
  rw [List.reverse_append, List.dropWhile_append, hMrev]
  by_cases hcase : (List.dropWhile pySpace E.reverse).isEmpty
  · refine ⟨[], ?_⟩
    simp [hcase]
  · refine ⟨' ' :: (List.dropWhile pySpace E.reverse).reverse, ?_⟩
    simp [hcase, List.reverse_append]

theorem stream_error_summary (e : String) :
    ∃ z : List Char,
      (pyStrip ("Error during summarisation: " ++ e)).data =
        "Error during summarisation:".data ++ z := by
  have h := trimChars_marker e.data
  simpa [pyStrip, String.data_append] using h

theorem stream_error_summary_ne (e : String) :
    pyStrip ("Error during summarisation: " ++ e) ≠ "" := by
  obtain ⟨z, hz⟩ := stream_error_summary e
  intro hc
  rw [hc] at hz
  have h0 : ([] : List Char) = "Error during summarisation:".data ++ z := hz
  have hlen := congrArg List.length h0
  rw [List.length_append] at hlen
  have h27 : ("Error during summarisation:".data).length = 27 := by decide
  simp only [List.length_nil, h27] at hlen
  omega

theorem stream_error_beginsWith (e : String) :
    beginsWith "Error during summarisation:"
      (pyStrip ("Error during summarisation: " ++ e)) = true := by
  obtain ⟨z, hz⟩ := stream_error_summary e
  unfold beginsWith
  rw [hz]
  exact isPrefixOf_append_self _ _

/-! ### Position lemmas for the summarizer outputs -/

theorem deepseek_summary_at (o : ModelOracle) (l : List Article) (i : Nat)
    (hi : i < l.length) (h1 : i < (DeepSeek.summarize_news o l).length) :
    (DeepSeek.summarize_news o l).get ⟨i, h1⟩ = DeepSeek.record o i (l.get ⟨i, hi⟩) := by
  have h := deepseek_get_summarizeFrom o 0 l i hi h1
  rw [Nat.zero_add] at h
  exact h

theorem newstopdf_summary_at (o : ModelOracle) (l : List Article) (i : Nat)
    (hi : i < l.length) (h1 : i < (NewsToPdf.news_data o l).length) :
    (NewsToPdf.news_data o l).get ⟨i, h1⟩ = NewsToPdf.record o i (l.get ⟨i, hi⟩) := by
  have h := newstopdf_get_newsDataFrom o 0 l i hi h1
  rw [Nat.zero_add] at h
  exact h

theorem deepseek_record_congr (o1 o2 : ModelOracle) (i : Nat) (a : Article)
    (h : o1 i = o2 i) : DeepSeek.record o1 i a = DeepSeek.record o2 i a := by
  unfold DeepSeek.record
  rw [h]

theorem newstopdf_record_congr (o1 o2 : ModelOracle) (i : Nat) (a : Article)
    (h : o1 i = o2 i) : NewsToPdf.record o1 i a = NewsToPdf.record o2 i a := by
  unfold NewsToPdf.record
  rw [h]

/-- Counterexample to claim C2 as stated: when the model call raises an
exception whose message is empty, `response_text.strip()` removes the space
after the colon, so the stored summary is `"Error during summarisation:"`
and does not begin with the claimed marker `"Error during summarisation: "`
(with its trailing space).  Both variants exhibit it. -/
theorem claim_c2_counterexample :
    (DeepSeek.summarize_news c2exO [exArticle]).map
        (fun r => beginsWith "Error during summarisation: " r.summary) = [false] ∧
    (DeepSeek.summarize_news c2exO [exArticle]).map SummaryRecord.summary =
        ["Error during summarisation:"] ∧
    (NewsToPdf.news_data c2exO [exArticle]).map
        (fun r => beginsWith "Error during summarisation: " r.summary) = [false] := by
  decide

/-- Claim C2 (amended): if the model call of index `i` raises an exception
with message `e`, then in both variants record `i` stores exactly
`("Error during summarisation: " ++ e).strip()` as its summary, which is
non-empty and begins with `"Error during summarisation:"` (the claimed
marker without its trailing space, which `strip()` removes when the
exception message is empty); and every record at an index other than `i` is
exactly what a run whose other calls are identical would have produced. -/
theorem claim_c2_amended (o1 o2 : ModelOracle) (l : List Article) (i : Nat) (e : String)
    (hi : i < l.length)
    (hfail : ∀ m, o1 i m = Except.error e)
    (hagree : ∀ j, j ≠ i → o1 j = o2 j)
    (h1 : i < (DeepSeek.summarize_news o1 l).length)
    (h1n : i < (NewsToPdf.news_data o1 l).length) :
    ((DeepSeek.summarize_news o1 l).get ⟨i, h1⟩).summary =
        pyStrip ("Error during summarisation: " ++ e) ∧
    ((DeepSeek.summarize_news o1 l).get ⟨i, h1⟩).summary ≠ "" ∧
    beginsWith "Error during summarisation:"
        (((DeepSeek.summarize_news o1 l).get ⟨i, h1⟩).summary) = true ∧
    ((NewsToPdf.news_data o1 l).get ⟨i, h1n⟩).summary =
        pyStrip ("Error during summarisation: " ++ e) ∧
    ((NewsToPdf.news_data o1 l).get ⟨i, h1n⟩).summary ≠ "" ∧
    beginsWith "Error during summarisation:"
        (((NewsToPdf.news_data o1 l).get ⟨i, h1n⟩).summary) = true ∧
    (∀ j (hj1 : j < (DeepSeek.summarize_news o1 l).length)
        (hj2 : j < (DeepSeek.summarize_news o2 l).length), j ≠ i →
        (DeepSeek.summarize_news o1 l).get ⟨j, hj1⟩ =
          (DeepSeek.summarize_news o2 l).get ⟨j, hj2⟩) ∧
    (∀ j (hj1 : j < (NewsToPdf.news_data o1 l).length)
        (hj2 : j < (NewsToPdf.news_data o2 l).length), j ≠ i →
        (NewsToPdf.news_data o1 l).get ⟨j, hj1⟩ =
          (NewsToPdf.news_data o2 l).get ⟨j, hj2⟩) := by
  have hds : ((DeepSeek.summarize_news o1 l).get ⟨i, h1⟩).summary =
      pyStrip ("Error during summarisation: " ++ e) := by
    rw [deepseek_summary_at o1 l i hi h1]
    unfold DeepSeek.record
    rw [hfail]
    rfl
  have hnp : ((NewsToPdf.news_data o1 l).get ⟨i, h1n⟩).summary =
      pyStrip ("Error during summarisation: " ++ e) := by
    rw [newstopdf_summary_at o1 l i hi h1n]
    unfold NewsToPdf.record NewsToPdf.summarize_article
    rw [hfail]
    rfl
  refine ⟨hds, ?_, ?_, hnp, ?_, ?_, ?_, ?_⟩
  · rw [hds]; exact stream_error_summary_ne e
  · rw [hds]; exact stream_error_beginsWith e
  · rw [hnp]; exact stream_error_summary_ne e
  · rw [hnp]; exact stream_error_beginsWith e
  · intro j hj1 hj2 hne
    have hj1' : j < (DeepSeek.summarizeFrom o1 0 l).length := hj1
    rw [deepseek_length_summarizeFrom] at hj1'
    rw [deepseek_summary_at o1 l j hj1' hj1, deepseek_summary_at o2 l j hj1' hj2]
    exact deepseek_record_congr o1 o2 j _ (hagree j hne)
  · intro j hj1 hj2 hne
    have hj1' : j < (NewsToPdf.newsDataFrom o1 0 l).length := hj1
    rw [newstopdf_length_newsDataFrom] at hj1'
    rw [newstopdf_summary_at o1 l j hj1' hj1, newstopdf_summary_at o2 l j hj1' hj2]
    exact newstopdf_record_congr o1 o2 j _ (hagree j hne)

theorem c2w_agree : ∀ j, j ≠ 0 → c2wO1 j = c2wO2 j := by
  intro j hj
  funext m
  simp [c2wO1, c2wO2, hj]

theorem c2w_len_ds : 0 < (DeepSeek.summarize_news c2wO1 c2wL).length := by decide

theorem c2w_len_np : 0 < (NewsToPdf.news_data c2wO1 c2wL).length := by decide

/-- Witness for the amended claim C2 at a concrete failing first call. -/
theorem claim_c2_amended_witness :
    ((DeepSeek.summarize_news c2wO1 c2wL).get ⟨0, c2w_len_ds⟩).summary ≠ "" ∧
    beginsWith "Error during summarisation:"
        (((DeepSeek.summarize_news c2wO1 c2wL).get ⟨0, c2w_len_ds⟩).summary) = true ∧
    ((NewsToPdf.news_data c2wO1 c2wL).get ⟨0, c2w_len_np⟩).summary ≠ "" := by
  have h := claim_c2_amended c2wO1 c2wO2 c2wL 0 "boom" (by decide) (fun _ => rfl)
    c2w_agree c2w_len_ds c2w_len_np
  exact ⟨h.2.1, h.2.2.1, h.2.2.2.2.1⟩

/-- Claim C3: in both variants of `get_company_news`, whenever the request
completes with a response whose HTTP status is non-success, or whose body
carries a status field other than "ok", or whose article array is empty or
absent, the function returns the empty list (never an exception) to the
caller. -/
theorem claim_c3 (http : HttpOracle) (today : Int) (company : String) (num_days : Int)
    (resp : HttpResponse)
    (hds : http (DeepSeek.news_request today company num_days) = Except.ok resp)
    (hnp : http (NewsToPdf.news_request today company num_days) = Except.ok resp)
    (hfail : resp.status_code ≠ 200 ∨
      (∃ data, resp.body = some data ∧ data.status ≠ some "ok") ∨
      (∃ data, resp.body = some data ∧ data.articles.getD [] = [])) :
    DeepSeek.get_company_news http today company num_days = Except.ok [] ∧
    NewsToPdf.get_company_news http today company num_days = Except.ok [] := by
  constructor
  · unfold DeepSeek.get_company_news
    rw [hds]
    rcases hfail with h | ⟨d, hb, hs⟩ | ⟨d, hb, ha⟩
    · simp [h]
    · by_cases hc : resp.status_code = 200
      · simp [hc, hb, hs]
      · simp [hc]
    · by_cases hc : resp.status_code = 200
      · by_cases hs : d.status = some "ok"
        · simp [hc, hb, hs, ha]
        · simp [hc, hb, hs]
      · simp [hc]
  · unfold NewsToPdf.get_company_news
    rw [hnp]
    rcases hfail with h | ⟨d, hb, hs⟩ | ⟨d, hb, ha⟩
    · simp [h]
    · by_cases hc : resp.status_code = 200
      · simp [hc, hb, hs]
      · simp [hc]
    · by_cases hc : resp.status_code = 200
      · by_cases hs : d.status = some "ok"
        · simp [hc, hb, hs, ha]
        · simp [hc, hb, hs]
      · simp [hc]

/-- Witness for claim C3 at a concrete 500 response. -/
theorem claim_c3_witness :
    DeepSeek.get_company_news c3http 0 "ACME" 10 = Except.ok [] ∧
    NewsToPdf.get_company_news c3http 0 "ACME" 10 = Except.ok [] :=
  claim_c3 c3http 0 "ACME" 10 c3resp rfl rfl (Or.inl (by decide))

/-- Counterexample to claim C4 as stated: the console sink prints the full
`publishedAt` timestamp while the PDF and HTML sinks truncate it to its
first 10 characters, so for a record with a full ISO timestamp the three
sinks do not yield the same set of (date, source, title) tuples. -/
theorem claim_c4_counterexample :
    ("2024-01-01T00:00:00Z", "Reuters", "X raises funding") ∈ console_triples [c4rec] ∧
    ("2024-01-01T00:00:00Z", "Reuters", "X raises funding") ∉ pdf_triples [c4rec] := by
  decide

/-- Claim C4 (amended): the PDF and HTML sinks yield the same (date, source,
title) tuples; the console sink yields the same source and title but with
the full `publishedAt` string as date, of which the PDF/HTML date is the
10-character truncation — so the three sinks agree exactly up to that date
truncation, only formatting differing otherwise. -/
theorem claim_c4_amended (l : List SummaryRecord) :
    pdf_triples l = html_triples l ∧
    console_triples l = l.map (fun r => (r.publishedAt, r.source, r.title)) ∧
    pdf_triples l = (console_triples l).map (fun t => (t.1.take 10, t.2.1, t.2.2)) := by
  refine ⟨rfl, ?_, ?_⟩
  · simp [console_triples, DeepSeek.display_news, DeepSeek.display_row, List.map_map]
  · simp [pdf_triples, console_triples, DeepSeek.display_news, DeepSeek.display_row,
      NewsToPdf.pdf_row, List.map_map]

/-- Claim C5: any lookback-day input on which `int(...)` raises `ValueError`
is replaced by the default of 10 with a printed notice (second component),
and fetching proceeds exactly as with `num_days = 10` in both variants. -/
theorem claim_c5 (s : String) (h : pyParseInt s = none) :
    read_days s = (10, true) ∧
    (∀ http today company,
      DeepSeek.get_company_news http today company (read_days s).1 =
        DeepSeek.get_company_news http today company 10 ∧
      NewsToPdf.get_company_news http today company (read_days s).1 =
        NewsToPdf.get_company_news http today company 10) := by
  have hr : read_days s = (10, true) := by simp [read_days, h]
  exact ⟨hr, fun http today company => by rw [hr]; exact ⟨rfl, rfl⟩⟩

/-- Witness for claim C5 at a non-numeric input. -/
theorem claim_c5_witness :
    pyParseInt "ten" = none ∧ read_days "ten" = (10, true) :=
  ⟨by decide, (claim_c5 "ten" (by decide)).1⟩

/-- Claim C6: any selection that does not strip to "1", "2" or "3" yields
the 4:3 preset (1024, 768) with the warning printed, while "1", "2" and "3"
yield the three presets without a warning. -/
theorem claim_c6 (s : String)
    (h1 : pyStrip s ≠ "1") (h2 : pyStrip s ≠ "2") (h3 : pyStrip s ≠ "3") :
    ImageGen.choose_image_ratio s = ((1024, 768), true) ∧
    ImageGen.choose_image_ratio "1" = ((1024, 576), false) ∧
    ImageGen.choose_image_ratio "2" = ((1024, 768), false) ∧
    ImageGen.choose_image_ratio "3" = ((1024, 1024), false) := by
  refine ⟨?_, by decide, by decide, by decide⟩
  unfold ImageGen.choose_image_ratio
  simp [h1, h2, h3]

/-- Witness for claim C6 at an unrecognized selection. -/
theorem claim_c6_witness :
    ImageGen.choose_image_ratio "hello" = ((1024, 768), true) :=
  (claim_c6 "hello" (by decide) (by decide) (by decide)).1

/-- Claim C7: whenever the image-generation call raises, returns no data, or
returns a payload on which base64 decoding raises, the run writes no file
and prints a failure message. -/
theorem claim_c7 (call : Except String (List String))
    (decode : String → Except String (List Nat))
    (h : (∃ e, call = Except.error e) ∨ call = Except.ok [] ∨
      (∃ d rest e, call = Except.ok (d :: rest) ∧ decode d = Except.error e)) :
    (ImageGen.image_main call decode).1 = none ∧
    (ImageGen.image_main call decode).2 ≠ [] := by
  rcases h with ⟨e, rfl⟩ | rfl | ⟨d, rest, e, rfl, hd⟩
  · simp [ImageGen.image_main, ImageGen.generate_image]
  · simp [ImageGen.image_main, ImageGen.generate_image]
  · simp [ImageGen.image_main, ImageGen.generate_image, ImageGen.save_image, hd]

/-- Witness for claim C7 at a failing generation call. -/
theorem claim_c7_witness :
    (ImageGen.image_main (Except.error "boom") c7decode).1 = none ∧
    (ImageGen.image_main (Except.error "boom") c7decode).2 ≠ [] :=
  claim_c7 (Except.error "boom") c7decode (Or.inl ⟨"boom", rfl⟩)

/-- Claim C8: when font loading raises, `generate_pdf` raises the distinct
"PDF font error" condition instead of producing a PDF, and `main` then falls
back to generating the HTML report from the same records. -/
theorem claim_c8 (fontLoad : Except String Unit) (company : String)
    (news : List SummaryRecord) (e : String) (h : fontLoad = Except.error e) :
    NewsToPdf.generate_pdf fontLoad company news =
      Except.error ("PDF font error: " ++ e) ∧
    NewsToPdf.render_reports fontLoad company news =
      NewsToPdf.RenderOutcome.htmlFallback ("PDF font error: " ++ e)
        (NewsToPdf.generate_html company news) := by
  subst h
  exact ⟨rfl, rfl⟩

/-- Witness for claim C8 at a concrete font failure. -/
theorem claim_c8_witness :
    NewsToPdf.generate_pdf (Except.error "font missing") "ACME" [c4rec] =
      Except.error ("PDF font error: " ++ "font missing") ∧
    NewsToPdf.render_reports (Except.error "font missing") "ACME" [c4rec] =
      NewsToPdf.RenderOutcome.htmlFallback ("PDF font error: " ++ "font missing")
        (NewsToPdf.generate_html "ACME" [c4rec]) :=
  claim_c8 (Except.error "font missing") "ACME" [c4rec] "font missing" rfl

/-- Claim C9: the summarizers never fail on an absent article field: an
absent title or publishedAt becomes "N/A" in the record, an absent url
becomes "", an absent source object or source name becomes "Unknown", and
an absent description or content is replaced by "N/A" in the prompt text,
in both variants. -/
theorem claim_c9 (o : ModelOracle) (i : Nat) (a : Article) :
    (a.title = none →
      (DeepSeek.record o i a).title = "N/A" ∧ (NewsToPdf.record o i a).title = "N/A") ∧
    (a.publishedAt = none →
      (DeepSeek.record o i a).publishedAt = "N/A" ∧
      (NewsToPdf.record o i a).publishedAt = "N/A") ∧
    (a.url = none →
      (DeepSeek.record o i a).url = "" ∧ (NewsToPdf.record o i a).url = "") ∧
    (a.source = none →
      (DeepSeek.record o i a).source = "Unknown" ∧
      (NewsToPdf.record o i a).source = "Unknown") ∧
    (∀ src, a.source = some src → src.name = none →
      (DeepSeek.record o i a).source = "Unknown" ∧
      (NewsToPdf.record o i a).source = "Unknown") ∧
    (a.description = none →
      DeepSeek.article_text a = DeepSeek.article_text { a with description := some "N/A" } ∧
      NewsToPdf.article_text a = NewsToPdf.article_text { a with description := some "N/A" }) ∧
    (a.content = none →
      DeepSeek.article_text a = DeepSeek.article_text { a with content := some "N/A" } ∧
      NewsToPdf.article_text a = NewsToPdf.article_text { a with content := some "N/A" }) := by
  refine ⟨fun h => ?_, fun h => ?_, fun h => ?_, fun h => ?_, fun src hs hn => ?_,
    fun h => ?_, fun h => ?_⟩ <;>
  · constructor <;>
      simp [DeepSeek.record, NewsToPdf.record, DeepSeek.article_text, NewsToPdf.article_text, *]

/-- Witness for claim C9 at an article with every optional key absent. -/
theorem claim_c9_witness :
    (DeepSeek.record exO 0 c9article).title = "N/A" ∧
    (NewsToPdf.record exO 0 c9article).title = "N/A" ∧
    (DeepSeek.record exO 0 c9article).source = "Unknown" ∧
    (DeepSeek.record exO 0 c9article).url = "" := by
  have h := claim_c9 exO 0 c9article
  exact ⟨(h.1 rfl).1, (h.1 rfl).2, (h.2.2.2.1 rfl).1, (h.2.2.1 rfl).1⟩

/-- Claim C10: `choose_image_ratio` is total: for every input string it
returns width 1024 and a height among 576, 768 and 1024. -/
theorem claim_c10 (s : String) :
    (( ImageGen.choose_image_ratio s).1).1 = 1024 ∧
    ((( ImageGen.choose_image_ratio s).1).2 = 576 ∨
     (( ImageGen.choose_image_ratio s).1).2 = 768 ∨
     (( ImageGen.choose_image_ratio s).1).2 = 1024) := by
  by_cases h1 : pyStrip s = "1"
  · simp [ImageGen.choose_image_ratio, h1]
  · by_cases h2 : pyStrip s = "2"
    · simp [ImageGen.choose_image_ratio, h1, h2]
    · by_cases h3 : pyStrip s = "3"
      · simp [ImageGen.choose_image_ratio, h1, h2, h3]
      · simp [ImageGen.choose_image_ratio, h1, h2, h3]
